import Mathlib

/-!
# `engine/shared/bindgen/wrapper.h`: the dual-SDK include selector

`wrapper.h` is a C header made of forward declarations, one object-like macro,
a list of `#include` directives and six `#ifdef XASH` groups.  The file is
embedded line by line (`wrapper_h`, 84 lines, in source order) and given meaning
by a small model of the conditional-compilation pass of the C preprocessor
(`preprocess`): a macro table, a stack of open conditional groups, and the list
of items that survive.  Included headers are not part of the repository and are
kept opaque: an `#include` that survives is recorded as an item.

`preprocess` is the selection of lines alone.  The full pass `cpp` (and
`resolve` for this header) also accounts for what the headers do, taken as a
parameter, and for macro replacement in the text of the declarations.
-/

namespace Wrapper

/-! ## Syntax of the lines that occur in `wrapper.h` -/

/-- The two spellings of `#include`: `<path>` and `"path"`. -/
inductive IncludeKind where
  | angle
  | quoted
  deriving DecidableEq, Repr

/-- A declaration written in the header itself.  `structDecl tag none` is
`struct tag;` (an incomplete type), `structDecl tag (some members)` would be
`struct tag { members };`.  `typedefFnPtr name ret params` is
`typedef ret (*name)(params);` with each parameter given as (type, name). -/
inductive Decl where
  | structDecl (tag : String) (body : Option (List String))
  | typedefFnPtr (name : String) (ret : String) (params : List (String × String))
  deriving DecidableEq, Repr

/-- One physical line of the header. -/
inductive Line where
  | blank
  | comment (text : String)
  | includeDir (kind : IncludeKind) (path : String)
  | defineDir (name : String) (body : String)
  | ifdefDir (name : String)
  | elseDir
  | endifDir
  | decl (d : Decl)
  deriving DecidableEq, Repr

/-- What is left of a line once conditional compilation has been resolved. -/
inductive Item where
  | includeOf (kind : IncludeKind) (path : String)
  | macroDef (name : String) (body : String)
  | decl (d : Decl)
  deriving DecidableEq, Repr

/-! ## The conditional-compilation pass -/

/-- The macro table: name and replacement text, most recent first. -/
abbrev MacroEnv := List (String × String)

/-- The test made by `#ifdef name`. -/
def isDefined (name : String) : MacroEnv → Bool
  | [] => false
  | (n, _) :: rest => n == name || isDefined name rest

/-- An open conditional group: whether the enclosing text was live, the outcome
of the `#ifdef` test, and whether `#else` has been passed. -/
structure Frame where
  outer : Bool
  cond : Bool
  inElse : Bool
  deriving DecidableEq, Repr

/-- Whether text inside the group is currently kept. -/
def Frame.live (f : Frame) : Bool :=
  f.outer && (f.cond != f.inElse)

/-- Whether the current line is kept, given the stack of open groups. -/
def active : List Frame → Bool
  | [] => true
  | f :: _ => f.live

/-- Runs the pass over the lines.  It fails (`none`) on `#else` or `#endif`
without an open group, on a second `#else` in one group, and on a group still
open at the end of the file. -/
def run : MacroEnv → List Frame → List Line → Option (List Item)
  | _, [], [] => some []
  | _, _ :: _, [] => none
  | env, st, Line.blank :: ls => run env st ls
  | env, st, Line.comment _ :: ls => run env st ls
  | env, st, Line.includeDir k p :: ls =>
    if active st then (run env st ls).map (fun out => Item.includeOf k p :: out)
    else run env st ls
  | env, st, Line.defineDir n b :: ls =>
    if active st then (run ((n, b) :: env) st ls).map (fun out => Item.macroDef n b :: out)
    else run env st ls
  | env, st, Line.decl d :: ls =>
    if active st then (run env st ls).map (fun out => Item.decl d :: out)
    else run env st ls
  | env, st, Line.ifdefDir n :: ls =>
    run env ({ outer := active st, cond := isDefined n env, inElse := false } :: st) ls
  | _, [], Line.elseDir :: _ => none
  | env, f :: st, Line.elseDir :: ls =>
    if f.inElse then none else run env ({ f with inElse := true } :: st) ls
  | _, [], Line.endifDir :: _ => none
  | env, _ :: st, Line.endifDir :: ls => run env st ls

/-- The pass applied to a whole file, starting from the macros defined on the
command line. -/
def preprocess (env : MacroEnv) (file : List Line) : Option (List Item) :=
  run env [] file

/-! ## The header -/

/-- The file `engine/shared/bindgen/wrapper.h`, one entry per source line. -/
def wrapper_h : List Line :=
  [ Line.includeDir .angle "stddef.h"
  , Line.blank
  , Line.defineDir "STDINT_H" "<stdint.h>"
  , Line.blank
  , Line.decl (.structDecl "tagPOINT" none)
  , Line.decl (.structDecl "delta_s" none)
  , Line.blank
  , Line.comment " HLSDK"
  , Line.decl (.structDecl "sizebuf_s" none)
  , Line.decl (.structDecl "client_s" none)
  , Line.decl (.structDecl "netchan_s" none)
  , Line.blank
  , Line.includeDir .quoted "common/mathlib.h"
  , Line.includeDir .quoted "common/const.h"
  , Line.includeDir .quoted "common/pmtrace.h"
  , Line.blank
  , Line.includeDir .quoted "engine/progdefs.h"
  , Line.includeDir .quoted "engine/edict.h"
  , Line.blank
  , Line.includeDir .quoted "common/beamdef.h"
  , Line.includeDir .quoted "common/cl_entity.h"
  , Line.includeDir .quoted "common/com_model.h"
  , Line.includeDir .quoted "common/con_nprint.h"
  , Line.includeDir .quoted "common/cvardef.h"
  , Line.includeDir .quoted "common/demo_api.h"
  , Line.comment "#include \"common/director_cmds.h\""
  , Line.includeDir .quoted "common/dlight.h"
  , Line.comment "#include \"common/dll_state.h\""
  , Line.includeDir .quoted "common/entity_state.h"
  , Line.includeDir .quoted "common/entity_types.h"
  , Line.comment "#include \"common/enums.h\""
  , Line.includeDir .quoted "common/event_api.h"
  , Line.includeDir .quoted "common/event_args.h"
  , Line.includeDir .quoted "common/event_flags.h"
  , Line.comment "#include \"common/hltv.h\""
  , Line.comment "#include \"common/in_buttons.h\""
  , Line.includeDir .quoted "common/ivoicetweak.h"
  , Line.includeDir .quoted "common/net_api.h"
  , Line.includeDir .quoted "common/netadr.h"
  , Line.includeDir .quoted "common/particledef.h"
  , Line.includeDir .quoted "common/qfont.h"
  , Line.includeDir .quoted "common/r_efx.h"
  , Line.includeDir .quoted "common/r_studioint.h"
  , Line.includeDir .quoted "common/ref_params.h"
  , Line.includeDir .quoted "common/screenfade.h"
  , Line.comment "#include \"common/Sequence.h\""
  , Line.includeDir .quoted "common/studio_event.h"
  , Line.includeDir .quoted "common/triangleapi.h"
  , Line.includeDir .quoted "common/usercmd.h"
  , Line.includeDir .quoted "common/weaponinfo.h"
  , Line.ifdefDir "XASH"
  , Line.includeDir .quoted "common/render_api.h"
  , Line.endifDir
  , Line.blank
  , Line.ifdefDir "XASH"
  , Line.includeDir .quoted "engine/keydefs.h"
  , Line.elseDir
  , Line.includeDir .quoted "public/keydefs.h"
  , Line.endifDir
  , Line.blank
  , Line.includeDir .quoted "pm_shared/pm_defs.h"
  , Line.includeDir .quoted "pm_shared/pm_movevars.h"
  , Line.ifdefDir "XASH"
  , Line.includeDir .quoted "common/kbutton.h"
  , Line.elseDir
  , Line.includeDir .quoted "cl_dll/kbutton.h"
  , Line.endifDir
  , Line.blank
  , Line.ifdefDir "XASH"
  , Line.includeDir .quoted "common/wrect.h"
  , Line.elseDir
  , Line.includeDir .quoted "cl_dll/wrect.h"
  , Line.decl (.typedefFnPtr "pfnUserMsgHook" "int"
      [("const char *", "pszName"), ("int", "iSize"), ("void *", "pbuf")])
  , Line.endifDir
  , Line.includeDir .quoted "engine/cdll_int.h"
  , Line.blank
  , Line.ifdefDir "XASH"
  , Line.includeDir .quoted "engine/cdll_exp.h"
  , Line.endifDir
  , Line.includeDir .quoted "engine/eiface.h"
  , Line.blank
  , Line.ifdefDir "XASH"
  , Line.includeDir .quoted "engine/menu_int.h"
  , Line.endifDir ]

/-! ## Reading the resolved file -/

/-- The two configurations of the build: plain HLSDK and the Xash3D fork. -/
inductive Config where
  | STANDARD
  | FORK
  deriving DecidableEq, Repr

/-- The configuration a macro table selects: `FORK` when `XASH` is defined,
whatever its replacement text, `STANDARD` otherwise. -/
def configOf (env : MacroEnv) : Config :=
  if isDefined "XASH" env then Config.FORK else Config.STANDARD

/-- The state of the build flag: `XASH` not defined, or defined with some
replacement text (`-DXASH=value`). -/
inductive FlagState where
  | undefined
  | defined (value : String)
  deriving DecidableEq, Repr

/-- The macro table a flag state starts the pass with. -/
def FlagState.env : FlagState → MacroEnv
  | FlagState.undefined => []
  | FlagState.defined v => [("XASH", v)]

/-- The path of an include item. -/
def Item.includePath? : Item → Option String
  | Item.includeOf _ p => some p
  | _ => none

/-- The paths of the headers included, in order. -/
def includePaths (items : List Item) : List String :=
  items.filterMap Item.includePath?

/-- The resolved include list of `wrapper.h` for a macro table. -/
def includeList (env : MacroEnv) : Option (List String) :=
  (preprocess env wrapper_h).map includePaths

/-- The name a declaration introduces. -/
def Decl.name : Decl → String
  | Decl.structDecl tag _ => tag
  | Decl.typedefFnPtr name _ _ => name

/-- The name an item of the header's own text introduces (macro, struct tag or
typedef name); an include introduces none itself. -/
def Item.declaredName? : Item → Option String
  | Item.includeOf _ _ => none
  | Item.macroDef n _ => some n
  | Item.decl d => some d.name

/-- The names the header's own text introduces, in order. -/
def declaredNames (items : List Item) : List String :=
  items.filterMap Item.declaredName?

/-- The file name of a header path: what follows the last `/`. -/
def baseName (path : String) : String :=
  String.mk ((path.data.reverse.takeWhile (fun c => c != '/')).reverse)

/-- The directory of a header path: what precedes the last `/` (empty when the
path has none). -/
def dirName (path : String) : String :=
  String.mk (((path.data.reverse.dropWhile (fun c => c != '/')).drop 1).reverse)

/-- The included paths that provide the header with the given file name. -/
def sourcesOf (header : String) (incs : List String) : List String :=
  incs.filter (fun p => baseName p == header)

/-- The name an item makes available downstream: the file name of an included
header, or the name the item declares. -/
def Item.exposedName : Item → String
  | Item.includeOf _ p => baseName p
  | Item.macroDef n _ => n
  | Item.decl d => d.name

/-- The names `wrapper.h` exposes for a macro table, in order. -/
def exposedNames (env : MacroEnv) : Option (List String) :=
  (preprocess env wrapper_h).map (fun items => items.map Item.exposedName)

/-- The struct declarations among the items: tag and body. -/
def Item.structDecl? : Item → Option (String × Option (List String))
  | Item.decl (Decl.structDecl tag body) => some (tag, body)
  | _ => none

/-- The struct declarations among the lines of a file, live or not. -/
def Line.structDecl? : Line → Option (String × Option (List String))
  | Line.decl (Decl.structDecl tag body) => some (tag, body)
  | _ => none

/-- The macro names tested by the conditional directives of a file. -/
def testedNames : List Line → List String
  | [] => []
  | Line.ifdefDir n :: ls => n :: testedNames ls
  | _ :: ls => testedNames ls

/-- The items of `wrapper.h` when `XASH` is not defined. -/
def standardItems : List Item :=
  (preprocess [] wrapper_h).getD []

/-- The items of `wrapper.h` when `XASH` is defined. -/
def forkItems : List Item :=
  (preprocess [("XASH", "")] wrapper_h).getD []

/-! ## The full pass: headers and macro replacement

`run` decides which lines survive and treats the rest of the preprocessor as
transparent.  `cpp` adds the two things `run` leaves out: an `#include` needs
its header (a missing one is fatal) and the header may change the macro table;
and the tokens of a surviving declaration undergo macro replacement.  The
headers are outside the repository, so they enter as a parameter. -/

/-- What the pass is told about the headers: which paths can be opened, and
what including one does to the macro table. -/
structure Headers where
  present : String → Bool
  effect : String → MacroEnv → MacroEnv

/-- Every header can be opened except the one at `path`; none touches the
macro table. -/
def Headers.without (path : String) : Headers :=
  ⟨fun p => p != path, fun _ env => env⟩

/-- The replacement text of a macro, the most recent definition first. -/
def lookupMacro (name : String) : MacroEnv → Option String
  | [] => none
  | (n, b) :: rest => if n == name then some b else lookupMacro name rest

/-- Cuts a character list at blanks; `acc` holds the current word reversed. -/
def splitBlanks : List Char → List Char → List (List Char)
  | acc, [] => if acc.isEmpty then [] else [acc.reverse]
  | acc, c :: cs =>
    if c == ' ' then
      if acc.isEmpty then splitBlanks [] cs else acc.reverse :: splitBlanks [] cs
    else splitBlanks (c :: acc) cs

/-- The blank-separated words of a text. -/
def words (s : String) : List String :=
  (splitBlanks [] s.data).map String.mk

/-- Macro replacement of one token: a token that names a macro is replaced by
the words of its replacement text, which are scanned again with that macro
hidden, so that a macro is never replaced inside its own replacement. -/
def expandTok : Nat → MacroEnv → List String → String → List String
  | 0, _, _, t => [t]
  | fuel + 1, env, hidden, t =>
    if hidden.contains t then [t]
    else
      match lookupMacro t env with
      | none => [t]
      | some body => (words body).flatMap (expandTok fuel env (t :: hidden))

/-- Macro replacement of a token list.  Each nested replacement hides one more
macro of the table, so the length of the table bounds the depth. -/
def expandTokens (env : MacroEnv) (toks : List String) : List String :=
  toks.flatMap (expandTok (env.length + 1) env [])

/-- The tokens of a parameter list: type words, name, commas between. -/
def paramTokens : List (String × String) → List String
  | [] => []
  | [(ty, n)] => words ty ++ [n]
  | (ty, n) :: rest => words ty ++ [n, ","] ++ paramTokens rest

/-- The tokens of a declaration as written in the header. -/
def Decl.tokens : Decl → List String
  | Decl.structDecl tag none => ["struct", tag, ";"]
  | Decl.structDecl tag (some members) =>
    ["struct", tag, "\x7b"] ++ members.flatMap words ++ ["\x7d", ";"]
  | Decl.typedefFnPtr name ret params =>
    ["typedef"] ++ words ret ++ ["(", "*", name, ")", "("] ++ paramTokens params ++ [")", ";"]

/-- A surviving line of the full pass: the item selected and its tokens after
macro replacement. -/
structure Resolved where
  item : Item
  text : List String
  deriving DecidableEq, Repr

/-- The full pass.  Beyond the failures of `run`, it fails on a live `#include`
whose header cannot be opened. -/
def cpp (H : Headers) : MacroEnv → List Frame → List Line → Option (List Resolved)
  | _, [], [] => some []
  | _, _ :: _, [] => none
  | env, st, Line.blank :: ls => cpp H env st ls
  | env, st, Line.comment _ :: ls => cpp H env st ls
  | env, st, Line.includeDir k p :: ls =>
    if active st then
      if H.present p then
        (cpp H (H.effect p env) st ls).map (fun out => ⟨Item.includeOf k p, []⟩ :: out)
      else none
    else cpp H env st ls
  | env, st, Line.defineDir n b :: ls =>
    if active st then
      (cpp H ((n, b) :: env) st ls).map (fun out => ⟨Item.macroDef n b, []⟩ :: out)
    else cpp H env st ls
  | env, st, Line.decl d :: ls =>
    if active st then
      (cpp H env st ls).map (fun out => ⟨Item.decl d, expandTokens env d.tokens⟩ :: out)
    else cpp H env st ls
  | env, st, Line.ifdefDir n :: ls =>
    cpp H env ({ outer := active st, cond := isDefined n env, inElse := false } :: st) ls
  | _, [], Line.elseDir :: _ => none
  | env, f :: st, Line.elseDir :: ls =>
    if f.inElse then none else cpp H env ({ f with inElse := true } :: st) ls
  | _, [], Line.endifDir :: _ => none
  | env, _ :: st, Line.endifDir :: ls => cpp H env st ls

/-- The full resolution of `wrapper.h`. -/
def resolve (H : Headers) (env : MacroEnv) : Option (List Resolved) :=
  cpp H env [] wrapper_h

theorem wrapper_h_length : wrapper_h.length = 84 := by decide

theorem isDefined_cons (name n b : String) (env : MacroEnv) :
    isDefined name ((n, b) :: env) = (n == name || isDefined name env) := rfl

/-- The pass reads the macro table only through the names its `#ifdef` lines
test: two tables that agree on those names give the same result. -/
theorem run_congr (ls : List Line) : ∀ (env1 env2 : MacroEnv) (st : List Frame),
    (∀ n ∈ testedNames ls, isDefined n env1 = isDefined n env2) →
    run env1 st ls = run env2 st ls := by
  induction ls with
  | nil => intro env1 env2 st _; cases st <;> rfl
  | cons l ls ih =>
    intro env1 env2 st h
    cases l with
    | blank => simp only [run]; exact ih _ _ _ (by simpa [testedNames] using h)
    | comment t => simp only [run]; exact ih _ _ _ (by simpa [testedNames] using h)
    | includeDir k p =>
      simp only [run]; rw [ih env1 env2 st (by simpa [testedNames] using h)]
    | defineDir n b =>
      simp only [run]
      rw [ih env1 env2 st (by simpa [testedNames] using h),
        ih ((n, b) :: env1) ((n, b) :: env2) st (by
          intro m hm
          rw [isDefined_cons, isDefined_cons, h m (by simpa [testedNames] using hm)])]
    | decl d =>
      simp only [run]; rw [ih env1 env2 st (by simpa [testedNames] using h)]
    | ifdefDir n =>
      simp only [run]
      rw [h n (by simp [testedNames])]
      exact ih _ _ _ (fun m hm => h m (by simp [testedNames, hm]))
    | elseDir =>
      cases st with
      | nil => rfl
      | cons f st =>
        simp only [run]
        rw [ih env1 env2 _ (by simpa [testedNames] using h)]
    | endifDir =>
      cases st with
      | nil => rfl
      | cons f st =>
        simp only [run]
        exact ih _ _ _ (by simpa [testedNames] using h)

theorem testedNames_wrapper_h :
    testedNames wrapper_h = ["XASH", "XASH", "XASH", "XASH", "XASH", "XASH"] := by
  decide

/-- The result for `wrapper.h` depends on the macro table only through whether
`XASH` is defined. -/
theorem preprocess_wrapper_congr (env1 env2 : MacroEnv)
    (h : isDefined "XASH" env1 = isDefined "XASH" env2) :
    preprocess env1 wrapper_h = preprocess env2 wrapper_h := by
  unfold preprocess
  apply run_congr
  intro n hn
  rw [testedNames_wrapper_h] at hn
  simp only [List.mem_cons, List.mem_singleton, List.not_mem_nil, or_false, or_self] at hn
  subst hn
  exact h

theorem preprocess_of_undefined (env : MacroEnv) (h : isDefined "XASH" env = false) :
    preprocess env wrapper_h = some standardItems := by
  rw [preprocess_wrapper_congr env [] (by rw [h]; rfl)]
  decide

theorem preprocess_of_defined (env : MacroEnv) (h : isDefined "XASH" env = true) :
    preprocess env wrapper_h = some forkItems := by
  rw [preprocess_wrapper_congr env [("XASH", "")] (by rw [h]; decide)]
  decide

theorem configOf_of_undefined (env : MacroEnv) (h : isDefined "XASH" env = false) :
    configOf env = Config.STANDARD := by
  simp [configOf, h]

theorem configOf_of_defined (env : MacroEnv) (h : isDefined "XASH" env = true) :
    configOf env = Config.FORK := by
  simp [configOf, h]

theorem undefined_of_configOf (env : MacroEnv) (h : configOf env = Config.STANDARD) :
    isDefined "XASH" env = false := by
  cases hd : isDefined "XASH" env
  · rfl
  · rw [configOf_of_defined env hd] at h; cases h

theorem defined_of_configOf (env : MacroEnv) (h : configOf env = Config.FORK) :
    isDefined "XASH" env = true := by
  cases hd : isDefined "XASH" env
  · rw [configOf_of_undefined env hd] at h; cases h
  · rfl

theorem includeList_of_undefined (env : MacroEnv) (h : isDefined "XASH" env = false) :
    includeList env = some (includePaths standardItems) := by
  rw [includeList, preprocess_of_undefined env h]; rfl

theorem includeList_of_defined (env : MacroEnv) (h : isDefined "XASH" env = true) :
    includeList env = some (includePaths forkItems) := by
  rw [includeList, preprocess_of_defined env h]; rfl

theorem exposedNames_of_undefined (env : MacroEnv) (h : isDefined "XASH" env = false) :
    exposedNames env = some (standardItems.map Item.exposedName) := by
  rw [exposedNames, preprocess_of_undefined env h]; rfl

theorem exposedNames_of_defined (env : MacroEnv) (h : isDefined "XASH" env = true) :
    exposedNames env = some (forkItems.map Item.exposedName) := by
  rw [exposedNames, preprocess_of_defined env h]; rfl

theorem preprocess_wrapper_isSome (env : MacroEnv) :
    (preprocess env wrapper_h).isSome = true := by
  cases h : isDefined "XASH" env
  · rw [preprocess_of_undefined env h]; rfl
  · rw [preprocess_of_defined env h]; rfl

/-- Two lists that agree once the names of `excl` are filtered out have the same
members outside `excl`. -/
theorem mem_iff_of_filter_eq {l1 l2 excl : List String}
    (h : l1.filter (fun n => !excl.contains n) = l2.filter (fun n => !excl.contains n))
    (n : String) (hn : n ∉ excl) : n ∈ l1 ↔ n ∈ l2 := by
  have key : ∀ l : List String, n ∈ l ↔ n ∈ l.filter (fun n => !excl.contains n) := by
    intro l
    simp [List.mem_filter, hn]
  rw [key l1, h, ← key l2]

/-- With `XASH` defined and `common/render_api.h` missing the full pass fails;
without the flag the same header set resolves. -/
theorem resolve_without_render_api :
    resolve (Headers.without "common/render_api.h") [("XASH", "1")] = none ∧
    (resolve (Headers.without "common/render_api.h") []).isSome = true := by
  decide

/-- The full pass replaces a declaration token that names a macro. -/
theorem expandTokens_tagPOINT :
    expandTokens [("tagPOINT", "POINT")] (Decl.structDecl "tagPOINT" none).tokens =
      ["struct", "POINT", ";"] := by
  decide

/-- The tokens of the typedef line of `wrapper.h`. -/
theorem tokens_pfnUserMsgHook :
    (Decl.typedefFnPtr "pfnUserMsgHook" "int"
      [("const char *", "pszName"), ("int", "iSize"), ("void *", "pbuf")]).tokens =
      ["typedef", "int", "(", "*", "pfnUserMsgHook", ")", "(", "const", "char", "*", "pszName",
        ",", "int", "iSize", ",", "void", "*", "pbuf", ")", ";"] := by
  decide

/-- The include list with no macro defined, written out. -/
theorem includeList_standard_eq :
    includeList [] = some
      ["stddef.h", "common/mathlib.h", "common/const.h", "common/pmtrace.h", "engine/progdefs.h",
        "engine/edict.h", "common/beamdef.h", "common/cl_entity.h", "common/com_model.h",
        "common/con_nprint.h", "common/cvardef.h", "common/demo_api.h", "common/dlight.h",
        "common/entity_state.h", "common/entity_types.h", "common/event_api.h",
        "common/event_args.h", "common/event_flags.h", "common/ivoicetweak.h",
        "common/net_api.h", "common/netadr.h", "common/particledef.h", "common/qfont.h",
        "common/r_efx.h", "common/r_studioint.h", "common/ref_params.h", "common/screenfade.h",
        "common/studio_event.h", "common/triangleapi.h", "common/usercmd.h",
        "common/weaponinfo.h", "public/keydefs.h", "pm_shared/pm_defs.h",
        "pm_shared/pm_movevars.h", "cl_dll/kbutton.h", "cl_dll/wrect.h", "engine/cdll_int.h",
        "engine/eiface.h"] := by
  decide

/-- The include list with `XASH` defined, written out. -/
theorem includeList_fork_eq :
    includeList [("XASH", "")] = some
      ["stddef.h", "common/mathlib.h", "common/const.h", "common/pmtrace.h", "engine/progdefs.h",
        "engine/edict.h", "common/beamdef.h", "common/cl_entity.h", "common/com_model.h",
        "common/con_nprint.h", "common/cvardef.h", "common/demo_api.h", "common/dlight.h",
        "common/entity_state.h", "common/entity_types.h", "common/event_api.h",
        "common/event_args.h", "common/event_flags.h", "common/ivoicetweak.h",
        "common/net_api.h", "common/netadr.h", "common/particledef.h", "common/qfont.h",
        "common/r_efx.h", "common/r_studioint.h", "common/ref_params.h", "common/screenfade.h",
        "common/studio_event.h", "common/triangleapi.h", "common/usercmd.h",
        "common/weaponinfo.h", "common/render_api.h", "engine/keydefs.h", "pm_shared/pm_defs.h",
        "pm_shared/pm_movevars.h", "common/kbutton.h", "common/wrect.h", "engine/cdll_int.h",
        "engine/cdll_exp.h", "engine/eiface.h", "engine/menu_int.h"] := by
  decide

/-! ## The claims -/

/-- C1: for every macro table the include list of `wrapper.h` resolves; when
`XASH` is undefined (STANDARD) neither `common/render_api.h` nor
`engine/menu_int.h` is in it, and when `XASH` is defined (FORK) each of the two
occurs in it exactly once. -/
theorem C1_fork_only_headers (env : MacroEnv) :
    ∃ incs, includeList env = some incs ∧
      match configOf env with
      | Config.STANDARD =>
        "common/render_api.h" ∉ incs ∧ "engine/menu_int.h" ∉ incs
      | Config.FORK =>
        incs.count "common/render_api.h" = 1 ∧ incs.count "engine/menu_int.h" = 1 := by
  cases h : isDefined "XASH" env
  · refine ⟨_, includeList_of_undefined env h, ?_⟩
    rw [configOf_of_undefined env h]
    decide
  · refine ⟨_, includeList_of_defined env h, ?_⟩
    rw [configOf_of_defined env h]
    decide

/-- C2: the items of `wrapper.h` that introduce the name `pfnUserMsgHook` are,
under STANDARD, exactly one: the typedef of a pointer to a function taking
`const char *`, `int` and `void *` and returning `int`; under FORK the header
introduces no such name. -/
theorem C2_pfnUserMsgHook_standard_only (env : MacroEnv) :
    ∃ items, preprocess env wrapper_h = some items ∧
      match configOf env with
      | Config.STANDARD =>
        items.filter (fun i => i.declaredName? == some "pfnUserMsgHook") =
          [Item.decl (Decl.typedefFnPtr "pfnUserMsgHook" "int"
            [("const char *", "pszName"), ("int", "iSize"), ("void *", "pbuf")])]
      | Config.FORK => "pfnUserMsgHook" ∉ declaredNames items := by
  cases h : isDefined "XASH" env
  · refine ⟨_, preprocess_of_undefined env h, ?_⟩
    rw [configOf_of_undefined env h]
    decide
  · refine ⟨_, preprocess_of_defined env h, ?_⟩
    rw [configOf_of_defined env h]
    decide

/-- C3: in every configuration exactly one included path provides `wrect.h`:
`cl_dll/wrect.h` under STANDARD (and `common/wrect.h` is not included),
`common/wrect.h` under FORK (and `cl_dll/wrect.h` is not included). -/
theorem C3_wrect_one_source (env : MacroEnv) :
    ∃ incs, includeList env = some incs ∧
      match configOf env with
      | Config.STANDARD =>
        sourcesOf "wrect.h" incs = ["cl_dll/wrect.h"] ∧ "common/wrect.h" ∉ incs
      | Config.FORK =>
        sourcesOf "wrect.h" incs = ["common/wrect.h"] ∧ "cl_dll/wrect.h" ∉ incs := by
  cases h : isDefined "XASH" env
  · refine ⟨_, includeList_of_undefined env h, ?_⟩
    rw [configOf_of_undefined env h]
    decide
  · refine ⟨_, includeList_of_defined env h, ?_⟩
    rw [configOf_of_defined env h]
    decide

/-- C4, as stated, fails for `kbutton.h`: its one source is `cl_dll/kbutton.h`
under STANDARD, which is not in `public/`, and `common/kbutton.h` under FORK,
which is not in `engine/`. -/
theorem C4_kbutton_counterexample :
    (∃ incs, includeList [] = some incs ∧
      sourcesOf "kbutton.h" incs = ["cl_dll/kbutton.h"] ∧
      (sourcesOf "kbutton.h" incs).map dirName ≠ ["public"]) ∧
    (∃ incs, includeList [("XASH", "1")] = some incs ∧
      sourcesOf "kbutton.h" incs = ["common/kbutton.h"] ∧
      (sourcesOf "kbutton.h" incs).map dirName ≠ ["engine"]) := by
  refine ⟨⟨_, includeList_of_undefined [] (by decide), ?_⟩,
    ⟨_, includeList_of_defined [("XASH", "1")] (by decide), ?_⟩⟩ <;> decide

/-- C4, amended: in every configuration each of `keydefs.h` and `kbutton.h` has
exactly one source; `keydefs.h` comes from `public/` under STANDARD and from
`engine/` under FORK, `kbutton.h` from `cl_dll/` under STANDARD and from
`common/` under FORK. -/
theorem C4_key_button_sources (env : MacroEnv) :
    ∃ incs, includeList env = some incs ∧
      match configOf env with
      | Config.STANDARD =>
        sourcesOf "keydefs.h" incs = ["public/keydefs.h"] ∧
        (sourcesOf "keydefs.h" incs).map dirName = ["public"] ∧
        sourcesOf "kbutton.h" incs = ["cl_dll/kbutton.h"] ∧
        (sourcesOf "kbutton.h" incs).map dirName = ["cl_dll"]
      | Config.FORK =>
        sourcesOf "keydefs.h" incs = ["engine/keydefs.h"] ∧
        (sourcesOf "keydefs.h" incs).map dirName = ["engine"] ∧
        sourcesOf "kbutton.h" incs = ["common/kbutton.h"] ∧
        (sourcesOf "kbutton.h" incs).map dirName = ["common"] := by
  cases h : isDefined "XASH" env
  · refine ⟨_, includeList_of_undefined env h, ?_⟩
    rw [configOf_of_undefined env h]
    decide
  · refine ⟨_, includeList_of_defined env h, ?_⟩
    rw [configOf_of_defined env h]
    decide

/-- C7: in each configuration the resolved include list has no duplicate path,
no two included paths have the same file name (so no header comes from both
variants: not both `keydefs.h`, not both `kbutton.h`, not both `wrect.h`), the
names the header declares itself are among `STDINT_H`, `tagPOINT`, `delta_s`,
`sizebuf_s`, `client_s`, `netchan_s`, `pfnUserMsgHook`, and each of these is
introduced at most once. -/
theorem C7_no_duplicates (env : MacroEnv) :
    ∃ items, preprocess env wrapper_h = some items ∧
      (includePaths items).Nodup ∧
      ((includePaths items).map baseName).Nodup ∧
      ¬ ("public/keydefs.h" ∈ includePaths items ∧ "engine/keydefs.h" ∈ includePaths items) ∧
      ¬ ("cl_dll/kbutton.h" ∈ includePaths items ∧ "common/kbutton.h" ∈ includePaths items) ∧
      ¬ ("cl_dll/wrect.h" ∈ includePaths items ∧ "common/wrect.h" ∈ includePaths items) ∧
      (declaredNames items).Nodup ∧
      (∀ n ∈ declaredNames items,
        n ∈ ["tagPOINT", "delta_s", "sizebuf_s", "client_s", "netchan_s", "STDINT_H",
          "pfnUserMsgHook"]) ∧
      (∀ n ∈ ["tagPOINT", "delta_s", "sizebuf_s", "client_s", "netchan_s", "STDINT_H",
          "pfnUserMsgHook"], (declaredNames items).count n ≤ 1) := by
  cases h : isDefined "XASH" env
  · exact ⟨_, preprocess_of_undefined env h, by decide⟩
  · exact ⟨_, preprocess_of_defined env h, by decide⟩

/-- C8: the struct declarations in the text of `wrapper.h`, live or not, are the
five forward declarations of `tagPOINT`, `delta_s`, `sizebuf_s`, `client_s` and
`netchan_s`, none with a body; and for every macro table the struct
declarations of the resolved file are these same five, so no struct is defined
locally and the forward-declared names do not depend on the configuration. -/
theorem C8_opaque_structs (env : MacroEnv) :
    wrapper_h.filterMap Line.structDecl? =
      [("tagPOINT", none), ("delta_s", none), ("sizebuf_s", none), ("client_s", none),
        ("netchan_s", none)] ∧
    ∃ items, preprocess env wrapper_h = some items ∧
      items.filterMap Item.structDecl? =
        [("tagPOINT", none), ("delta_s", none), ("sizebuf_s", none), ("client_s", none),
          ("netchan_s", none)] := by
  refine ⟨by decide, ?_⟩
  cases h : isDefined "XASH" env
  · exact ⟨_, preprocess_of_undefined env h, by decide⟩
  · exact ⟨_, preprocess_of_defined env h, by decide⟩

/-- C9, as stated, fails: `pfnUserMsgHook` is exposed when `XASH` is undefined
and not when it is defined, and the header file name `render_api.h` is exposed
when `XASH` is defined and not when it is undefined. -/
theorem C9_exposed_names_counterexample :
    ∃ s f, exposedNames [] = some s ∧ exposedNames [("XASH", "1")] = some f ∧
      "pfnUserMsgHook" ∈ s ∧ "pfnUserMsgHook" ∉ f ∧
      "render_api.h" ∈ f ∧ "render_api.h" ∉ s :=
  ⟨_, _, exposedNames_of_undefined [] (by decide),
    exposedNames_of_defined [("XASH", "1")] (by decide), by decide⟩

/-- C9, amended: the names exposed under STANDARD and under FORK are the same
except for four.  Every name other than `pfnUserMsgHook`, `render_api.h`,
`cdll_exp.h` and `menu_int.h` is exposed under one configuration exactly when it
is exposed under the other (among them the five struct tags, `STDINT_H`,
`keydefs.h`, `kbutton.h` and `wrect.h`, exposed under both); `pfnUserMsgHook` is
exposed under STANDARD only, the three header names under FORK only. -/
theorem C9_exposed_names_common (envS envF : MacroEnv)
    (hS : configOf envS = Config.STANDARD) (hF : configOf envF = Config.FORK) :
    ∃ s f, exposedNames envS = some s ∧ exposedNames envF = some f ∧
      (∀ n, n ∉ ["pfnUserMsgHook", "render_api.h", "cdll_exp.h", "menu_int.h"] →
        (n ∈ s ↔ n ∈ f)) ∧
      (∀ n ∈ ["tagPOINT", "delta_s", "sizebuf_s", "client_s", "netchan_s", "STDINT_H",
          "keydefs.h", "kbutton.h", "wrect.h"], n ∈ s ∧ n ∈ f) ∧
      ("pfnUserMsgHook" ∈ s ∧ "pfnUserMsgHook" ∉ f) ∧
      (∀ n ∈ ["render_api.h", "cdll_exp.h", "menu_int.h"], n ∈ f ∧ n ∉ s) := by
  refine ⟨_, _, exposedNames_of_undefined envS (undefined_of_configOf envS hS),
    exposedNames_of_defined envF (defined_of_configOf envF hF), ?_, by decide, by decide,
    by decide⟩
  exact mem_iff_of_filter_eq (by decide)

theorem C9_exposed_names_common_witness :
    configOf [] = Config.STANDARD ∧ configOf [("XASH", "1")] = Config.FORK ∧
    ∃ s f, exposedNames [] = some s ∧ exposedNames [("XASH", "1")] = some f ∧
      ("wrect.h" ∈ s ↔ "wrect.h" ∈ f) := by
  obtain ⟨s, f, hs, hf, hcommon, _⟩ :=
    C9_exposed_names_common [] [("XASH", "1")] (by decide) (by decide)
  exact ⟨by decide, by decide, s, f, hs, hf, hcommon "wrect.h" (by decide)⟩

/-- C10: for a STANDARD and a FORK macro table, the paths included under FORK
and not under STANDARD are `common/render_api.h`, `engine/keydefs.h`,
`common/kbutton.h`, `common/wrect.h`, `engine/cdll_exp.h`, `engine/menu_int.h`;
those included under STANDARD and not under FORK are `public/keydefs.h`,
`cl_dll/kbutton.h`, `cl_dll/wrect.h`; the remaining includes, from `stddef.h`
to `engine/eiface.h`, are the same list in the same order on both sides; the
`wrect.h` source (and under STANDARD the `pfnUserMsgHook` typedef) precedes
`engine/cdll_int.h`; and the items that are not includes are the same, but for
that typedef. -/
theorem C10_configuration_difference (envS envF : MacroEnv)
    (hS : configOf envS = Config.STANDARD) (hF : configOf envF = Config.FORK) :
    ∃ s f, preprocess envS wrapper_h = some s ∧ preprocess envF wrapper_h = some f ∧
      (includePaths f).filter (fun p => !(includePaths s).contains p) =
        ["common/render_api.h", "engine/keydefs.h", "common/kbutton.h", "common/wrect.h",
          "engine/cdll_exp.h", "engine/menu_int.h"] ∧
      (includePaths s).filter (fun p => !(includePaths f).contains p) =
        ["public/keydefs.h", "cl_dll/kbutton.h", "cl_dll/wrect.h"] ∧
      (includePaths s).filter (fun p => (includePaths f).contains p) =
        (includePaths f).filter (fun p => (includePaths s).contains p) ∧
      ((includePaths s).filter (fun p => (includePaths f).contains p)).head? =
        some "stddef.h" ∧
      ((includePaths s).filter (fun p => (includePaths f).contains p)).getLast? =
        some "engine/eiface.h" ∧
      Item.includeOf IncludeKind.quoted "engine/cdll_int.h" ∈ s ∧
      Item.includeOf IncludeKind.quoted "engine/cdll_int.h" ∈ f ∧
      s.indexOf (Item.includeOf IncludeKind.quoted "cl_dll/wrect.h") <
        s.indexOf (Item.includeOf IncludeKind.quoted "engine/cdll_int.h") ∧
      s.indexOf (Item.decl (Decl.typedefFnPtr "pfnUserMsgHook" "int"
          [("const char *", "pszName"), ("int", "iSize"), ("void *", "pbuf")])) <
        s.indexOf (Item.includeOf IncludeKind.quoted "engine/cdll_int.h") ∧
      f.indexOf (Item.includeOf IncludeKind.quoted "common/wrect.h") <
        f.indexOf (Item.includeOf IncludeKind.quoted "engine/cdll_int.h") ∧
      s.filter (fun i => i.includePath?.isNone) =
        f.filter (fun i => i.includePath?.isNone) ++
          [Item.decl (Decl.typedefFnPtr "pfnUserMsgHook" "int"
            [("const char *", "pszName"), ("int", "iSize"), ("void *", "pbuf")])] :=
  ⟨_, _, preprocess_of_undefined envS (undefined_of_configOf envS hS),
    preprocess_of_defined envF (defined_of_configOf envF hF), by decide⟩

theorem C10_configuration_difference_witness :
    configOf [] = Config.STANDARD ∧ configOf [("XASH", "1")] = Config.FORK ∧
    ∃ s f, preprocess [] wrapper_h = some s ∧ preprocess [("XASH", "1")] wrapper_h = some f ∧
      (includePaths s).filter (fun p => !(includePaths f).contains p) =
        ["public/keydefs.h", "cl_dll/kbutton.h", "cl_dll/wrect.h"] := by
  obtain ⟨s, f, hs, hf, _, hdiff, _⟩ :=
    C10_configuration_difference [] [("XASH", "1")] (by decide) (by decide)
  exact ⟨by decide, by decide, s, f, hs, hf, hdiff⟩

end Wrapper
